import Mathlib

/-!
Verification of the whale movement detection and wallet-statistics
aggregation engine of the sui-whale-ai-agent repository.

Shallow embedding of the relevant code:
  * db/models.py                -- WhaleHolder, WhaleMovement, WalletStats rows
  * whale_detector/detector.py  -- update_whale_holders, update_wallet_stats,
                                   analyze_wallet, monitor_loop alert branch
  * modules/whale_monitoring/whale_service.py -- store_whale_holder
  * api_clients/base_client.py  -- _make_request / _make_request_async retry loop

Floating-point balances and USD values are embedded as rationals; the code
only adds, subtracts, divides and compares them, so the control flow is the
same.  Python datetimes are embedded as rational second counts.
-/

namespace SuiWhale

/-- direction tag of a movement; the source stores the Python strings
"buy" and "sell" in the movement_type column of WhaleMovement. -/
inductive MovementType where
  | buy
  | sell
  deriving DecidableEq, Repr

/-- db/models.py WhaleHolder: one live snapshot per (token_id, address). -/
structure WhaleHolder where
  token_id : Nat
  address : String
  balance : ℚ
  usd_value : ℚ
  percentage : ℚ
  deriving DecidableEq, Repr

/-- db/models.py WhaleMovement: immutable record of a detected balance
change.  holder identity is carried by (token_id, address) of the holder
row the source points at via holder_id. -/
structure WhaleMovement where
  token_id : Nat
  holder_address : String
  movement_type : MovementType
  amount : ℚ
  usd_value : ℚ
  timestamp : ℚ
  deriving DecidableEq, Repr

/-- db/models.py WalletStats row.  win_rate is a method of the class, not a
column; Python lets an instance attribute of the same name shadow the
method, which we record in win_rate_attr (none = no instance attribute,
attribute lookup finds the class method). -/
structure WalletStats where
  address : String
  total_volume_usd : ℚ
  total_trades : ℤ
  total_pnl_usd : ℚ
  win_rate_attr : Option ℚ
  deriving DecidableEq, Repr

/-- db/models.py WalletStats.win_rate: returns 0.0 when total_trades == 0,
else (total_pnl_usd / total_volume_usd) * 100 when total_volume_usd > 0,
else 0.0. -/
def WalletStats.win_rate (s : WalletStats) : ℚ :=
  if s.total_trades = 0 then 0
  else if 0 < s.total_volume_usd then s.total_pnl_usd / s.total_volume_usd * 100
  else 0

/-- one fetched holder row {address, balance, usd_value, percentage} as
handed to the reconciliation code. -/
structure HolderData where
  address : String
  balance : ℚ
  usd_value : ℚ
  percentage : ℚ
  deriving DecidableEq, Repr

/-- db.query(WhaleHolder).filter_by(address=..., token_id=...).first():
the first stored snapshot matching the pair, if any. -/
def findHolder (store : List WhaleHolder) (tokenId : Nat) (addr : String) :
    Option WhaleHolder :=
  store.find? (fun w => w.token_id == tokenId && w.address == addr)

/-- mutation of the matching snapshot in place: whale.balance, usd_value,
percentage are set to the fetched values (detector.py lines 200-202,
whale_service.py _update_holder_data). -/
def overwriteHolder (store : List WhaleHolder) (tokenId : Nat) (hd : HolderData) :
    List WhaleHolder :=
  store.map (fun w =>
    if w.token_id == tokenId && w.address == hd.address then
      { w with balance := hd.balance, usd_value := hd.usd_value,
               percentage := hd.percentage }
    else w)

/-- result of processing one fetched holder row inside
WhaleDetector.update_whale_holders: the snapshot store afterwards, the
movements added to the session, and the whale appended to the returned
whales list (none when the row is below the whale threshold). -/
structure StepResult where
  store : List WhaleHolder
  movements : List WhaleMovement
  appended : Option WhaleHolder
  deriving DecidableEq, Repr

/-- per-row body of WhaleDetector.update_whale_holders (detector.py lines
163-204): rows below min_whale_holdings are skipped; an unseen (token,
address) creates a snapshot with the fetched values and no movement; an
existing snapshot with a different balance emits one movement (buy when
the fetched balance is larger, else sell, with absolute balance and USD
deltas) and then the snapshot is overwritten with the fetched values; the
overwrite happens for every existing snapshot, equal balance included. -/
def processHolder (min_whale_holdings : ℚ) (tokenId : Nat) (now : ℚ)
    (store : List WhaleHolder) (hd : HolderData) : StepResult :=
  if min_whale_holdings ≤ hd.usd_value then
    match findHolder store tokenId hd.address with
    | none =>
      let whale : WhaleHolder :=
        ⟨tokenId, hd.address, hd.balance, hd.usd_value, hd.percentage⟩
      ⟨store ++ [whale], [], some whale⟩
    | some whale =>
      let movements : List WhaleMovement :=
        if whale.balance ≠ hd.balance then
          [⟨tokenId, hd.address,
            if whale.balance < hd.balance then MovementType.buy else MovementType.sell,
            |hd.balance - whale.balance|, |hd.usd_value - whale.usd_value|, now⟩]
        else []
      let updated : WhaleHolder :=
        { whale with balance := hd.balance, usd_value := hd.usd_value,
                     percentage := hd.percentage }
      ⟨overwriteHolder store tokenId hd, movements, some updated⟩
  else ⟨store, [], none⟩

/-- WhaleService.store_whale_holder (whale_service.py lines 30-58; the
same structure appears in main.py store_whale_holder): an unseen holder
creates the snapshot; an existing holder emits a movement only when the
balance changed, and the snapshot fields are updated only inside that
balance-changed branch. -/
def store_whale_holder (tokenId : Nat) (now : ℚ) (store : List WhaleHolder)
    (hd : HolderData) : List WhaleHolder × List WhaleMovement :=
  match findHolder store tokenId hd.address with
  | none =>
    (store ++ [⟨tokenId, hd.address, hd.balance, hd.usd_value, hd.percentage⟩], [])
  | some holder =>
    if holder.balance ≠ hd.balance then
      (overwriteHolder store tokenId hd,
       [⟨tokenId, hd.address,
         if holder.balance < hd.balance then MovementType.buy else MovementType.sell,
         |hd.balance - holder.balance|, |hd.usd_value - holder.usd_value|, now⟩])
    else (store, [])

/-- accumulator while folding update_whale_holders over the fetched rows. -/
structure ReconcileState where
  store : List WhaleHolder
  movements : List WhaleMovement
  whales : List WhaleHolder
  deriving DecidableEq, Repr

def reconcileStep (min_whale_holdings : ℚ) (tokenId : Nat) (now : ℚ)
    (st : ReconcileState) (hd : HolderData) : ReconcileState :=
  let r := processHolder min_whale_holdings tokenId now st.store hd
  ⟨r.store, st.movements ++ r.movements, st.whales ++ r.appended.toList⟩

/-- result of one WhaleDetector.update_whale_holders call: the returned
whales list, the snapshot store and movements after commit, the value of
self.last_holder_update afterwards, and whether the provider
(blockberry.get_token_holders_async) was contacted at all. -/
structure HolderRefreshResult where
  whales : List WhaleHolder
  store : List WhaleHolder
  movements : List WhaleMovement
  last_holder_update : ℚ
  contacted_provider : Bool
  deriving DecidableEq, Repr

/-- WhaleDetector.update_whale_holders (detector.py lines 148-208).  The
gate at lines 152-154 compares now against the single field
self.last_holder_update, which is shared across all tokens: if fewer than
update_interval seconds elapsed, the call returns [] without fetching.
Otherwise the fetched rows are reconciled and last_holder_update is set
to now. -/
def update_whale_holders (update_interval : ℚ) (min_whale_holdings : ℚ)
    (tokenId : Nat) (last_holder_update now : ℚ) (store : List WhaleHolder)
    (fetched : List HolderData) : HolderRefreshResult :=
  if now - last_holder_update < update_interval then
    ⟨[], store, [], last_holder_update, false⟩
  else
    let st := fetched.foldl (reconcileStep min_whale_holdings tokenId now)
      ⟨store, [], []⟩
    ⟨st.whales, st.store, st.movements, now, true⟩

/-- trader statistics dict returned by InsideXClient.get_trader_stats,
restricted to the keys WhaleDetector.update_wallet_stats reads. -/
structure TraderStats where
  total_trades : ℤ
  pnl : ℚ
  volume : ℚ
  win_rate : ℚ
  deriving DecidableEq, Repr

/-- WhaleDetector.update_wallet_stats (detector.py lines 212-237).
traderStats = none embeds both a raised exception from
insidex.get_trader_stats (caught at line 230) and a falsy response (the
line 225 guard): in either case no field is assigned.  When the provider
returns data, total_trades, total_pnl_usd and total_volume_usd columns
are overwritten and the line 229 assignment stats.win_rate = ... binds a
number as an instance attribute (win_rate is not a column). -/
def update_wallet_stats (existing : Option WalletStats) (address : String)
    (traderStats : Option TraderStats) : WalletStats :=
  let stats := match existing with
    | some s => s
    | none => ⟨address, 0, 0, 0, none⟩
  match traderStats with
  | none => stats
  | some ts =>
    { stats with total_trades := ts.total_trades, total_pnl_usd := ts.pnl,
                 total_volume_usd := ts.volume, win_rate_attr := some ts.win_rate }

/-- Python evaluation of the expression stats.win_rate() on a WalletStats
instance: attribute lookup finds the instance attribute first when one
was bound; that value is a number, so the call raises TypeError (none);
otherwise the class method runs. -/
def callMethodWinRate (s : WalletStats) : Option ℚ :=
  match s.win_rate_attr with
  | some _ => none
  | none => some s.win_rate

/-- outcome of WhaleDetector.analyze_wallet, keeping the dict entries the
monitor loop reads. -/
inductive AnalyzeResult where
  | empty
  | typeErrorWinRateNotCallable
  | ok (total_volume_usd : ℚ) (total_trades : ℤ) (win_rate : ℚ)
       (total_pnl_usd : ℚ) (avg_trade_size : ℚ) (total_holdings : ℚ)
       (recent_movements : List WhaleMovement)
  deriving DecidableEq, Repr

/-- WhaleDetector.analyze_wallet (detector.py lines 239-284): empty dict
when no WalletStats row exists; otherwise line 254 evaluates
stats.win_rate(), which raises TypeError when the attribute was shadowed
by a number; otherwise builds the analysis dict with total_holdings the
sum of the usd_value of the wallet's holdings. -/
def analyze_wallet (stats : Option WalletStats) (holdings : List WhaleHolder)
    (movements : List WhaleMovement) : AnalyzeResult :=
  match stats with
  | none => .empty
  | some s =>
    match callMethodWinRate s with
    | none => .typeErrorWinRateNotCallable
    | some wr =>
      .ok s.total_volume_usd s.total_trades wr s.total_pnl_usd
        (if 0 < s.total_trades then s.total_volume_usd / (s.total_trades : ℚ) else 0)
        (holdings.map (fun h => h.usd_value)).sum movements

/-- priority of a fired alert; the source expresses this as the enhanced
meme-token alert block versus the compact utility-token block. -/
inductive AlertPriority where
  | high
  | low
  deriving DecidableEq, Repr

/-- alert branch of WhaleDetector.monitor_loop (detector.py lines
300-344): nothing fires on an empty analysis or when the analysis has no
recent movements; a meme-classified token always fires the enhanced
(high) alert; a utility token fires the compact (low) alert only when
analysis["total_holdings"] > 100_000.  A TypeError from analyze_wallet
propagates to the outer handler and no alert decision is reached. -/
def monitor_alert_decision (is_meme_token : Bool) (analysis : AnalyzeResult) :
    Option AlertPriority :=
  match analysis with
  | .empty => none
  | .typeErrorWinRateNotCallable => none
  | .ok _ _ _ _ _ total_holdings recent_movements =>
    if recent_movements.isEmpty then none
    else if is_meme_token then some AlertPriority.high
    else if 100000 < total_holdings then some AlertPriority.low
    else none

/-- what one iteration attempt of the request loop observes from httpx:
a successful 2xx response body, a TimeoutException, an HTTPStatusError
carrying the response status (raised by response.raise_for_status for any
4xx or 5xx status, 429 included), another httpx.HTTPError, or any other
exception. -/
inductive AttemptOutcome where
  | ok (body : Nat)
  | timeoutExc
  | statusErr (code : Nat)
  | httpErr
  | otherExc
  deriving DecidableEq, Repr

/-- how BaseAPIClient._make_request / _make_request_async terminates. -/
inductive RequestOutcome where
  | success (body : Nat)
  | apiTimeoutError (max_retries : Nat)
  | apiResponseError (code : Nat)
  | apiHttpError (max_retries : Nat)
  | apiUnexpectedError
  | fellThrough
  deriving DecidableEq, Repr

/-- trace of one _make_request call: its outcome, the list of backoff
sleeps performed (seconds), and how many attempts were made. -/
structure RequestTrace where
  outcome : RequestOutcome
  sleeps : List Nat
  attempts : Nat
  deriving DecidableEq, Repr

/-- the while retries < max_retries loop of BaseAPIClient._make_request
and _make_request_async (base_client.py lines 95-126 and 143-168), with
fuel = max_retries - retries.  TimeoutException and plain httpx.HTTPError
increment retries, raise after max_retries attempts and otherwise sleep
2 ** retries; httpx.HTTPStatusError raises APIResponseError immediately
(its except clause precedes the HTTPError one); any other exception
raises APIError immediately.  fellThrough is the implicit None returned
when the loop condition is false from the start (max_retries = 0). -/
def makeRequestLoop (max_retries : Nat) (attempt : Nat → AttemptOutcome) :
    Nat → Nat → List Nat → Nat → RequestTrace
  | 0, _, sleeps, attemptsMade => ⟨.fellThrough, sleeps, attemptsMade⟩
  | fuel + 1, retries, sleeps, attemptsMade =>
    match attempt retries with
    | .ok body => ⟨.success body, sleeps, attemptsMade + 1⟩
    | .timeoutExc =>
      if retries + 1 = max_retries then
        ⟨.apiTimeoutError max_retries, sleeps, attemptsMade + 1⟩
      else
        makeRequestLoop max_retries attempt fuel (retries + 1)
          (sleeps ++ [2 ^ (retries + 1)]) (attemptsMade + 1)
    | .statusErr code => ⟨.apiResponseError code, sleeps, attemptsMade + 1⟩
    | .httpErr =>
      if retries + 1 = max_retries then
        ⟨.apiHttpError max_retries, sleeps, attemptsMade + 1⟩
      else
        makeRequestLoop max_retries attempt fuel (retries + 1)
          (sleeps ++ [2 ^ (retries + 1)]) (attemptsMade + 1)
    | .otherExc => ⟨.apiUnexpectedError, sleeps, attemptsMade + 1⟩

/-- BaseAPIClient._make_request: the loop entered with retries = 0. -/
def makeRequest (max_retries : Nat) (attempt : Nat → AttemptOutcome) :
    RequestTrace :=
  makeRequestLoop max_retries attempt max_retries 0 [] 0

/-! ### Helper lemmas -/

/-- overwriting the matching snapshot keeps it findable and sets exactly
the three fetched fields on it. -/
theorem findHolder_overwriteHolder (store : List WhaleHolder) (tokenId : Nat)
    (hd : HolderData) (w : WhaleHolder)
    (h : findHolder store tokenId hd.address = some w) :
    findHolder (overwriteHolder store tokenId hd) tokenId hd.address =
      some { w with balance := hd.balance, usd_value := hd.usd_value,
                    percentage := hd.percentage } := by
  induction store with
  | nil => simp [findHolder] at h
  | cons a t ih =>
    by_cases hc : (a.token_id == tokenId && a.address == hd.address) = true
    · rw [findHolder, List.find?] at h
      rw [hc] at h
      cases h
      simp [overwriteHolder, findHolder, List.find?, hc]
    · rw [findHolder, List.find?] at h
      rw [Bool.not_eq_true] at hc
      rw [hc] at h
      have ht : findHolder t tokenId hd.address = some w := h
      have hrec := ih ht
      simp only [overwriteHolder, findHolder, List.find?, List.map_cons, hc,
        Bool.false_eq_true, if_false]
      rw [overwriteHolder, findHolder] at hrec
      exact hrec

/-! ### Claim theorems -/

/-- C1: reconciling a fetched row against an existing snapshot with a
different balance emits exactly one Movement — buy when the fetched
balance is larger, else sell, with amount the absolute balance delta and
usd_value the absolute USD delta — and the stored snapshot is then
overwritten with the fetched values; an equal balance emits no
Movement. -/
theorem reconcile_movement_on_balance_change
    (min_whale_holdings : ℚ) (tokenId : Nat) (now : ℚ)
    (store : List WhaleHolder) (hd : HolderData) (whale : WhaleHolder)
    (hfind : findHolder store tokenId hd.address = some whale)
    (hthr : min_whale_holdings ≤ hd.usd_value) :
    (whale.balance ≠ hd.balance →
      (processHolder min_whale_holdings tokenId now store hd).movements =
        [⟨tokenId, hd.address,
          if whale.balance < hd.balance then MovementType.buy else MovementType.sell,
          |hd.balance - whale.balance|, |hd.usd_value - whale.usd_value|, now⟩] ∧
      findHolder (processHolder min_whale_holdings tokenId now store hd).store
          tokenId hd.address =
        some { whale with balance := hd.balance, usd_value := hd.usd_value,
                          percentage := hd.percentage }) ∧
    (whale.balance = hd.balance →
      (processHolder min_whale_holdings tokenId now store hd).movements = []) := by
  unfold processHolder
  rw [if_pos hthr, hfind]
  constructor
  · intro hne
    constructor
    · simp only [if_pos hne]
    · exact findHolder_overwriteHolder store tokenId hd whale hfind
  · intro heq
    simp [heq]

/-- witness for C1 at the spec scenario 1000 → 1500: one buy movement of
amount 500 and the snapshot overwritten. -/
theorem reconcile_movement_on_balance_change_witness :
    (processHolder 20000 1 7 [⟨1, "w", 1000, 30000, 1⟩] ⟨"w", 1500, 45000, 1⟩).movements =
      [⟨1, "w",
        if (1000 : ℚ) < 1500 then MovementType.buy else MovementType.sell,
        |(1500 : ℚ) - 1000|, |(45000 : ℚ) - 30000|, 7⟩] ∧
    findHolder (processHolder 20000 1 7 [⟨1, "w", 1000, 30000, 1⟩]
        ⟨"w", 1500, 45000, 1⟩).store 1 "w" =
      some ⟨1, "w", 1500, 45000, 1⟩ :=
  (reconcile_movement_on_balance_change 20000 1 7 [⟨1, "w", 1000, 30000, 1⟩]
    ⟨"w", 1500, 45000, 1⟩ ⟨1, "w", 1000, 30000, 1⟩ (by decide) (by decide)).1
    (by decide)

/-- C2: a fetched row above the whale threshold with no existing snapshot
creates exactly one snapshot with the fetched values and emits no
Movement, whatever the balance; a row below min_whale_holdings creates
neither a snapshot nor a Movement. -/
theorem first_sighting_and_threshold
    (min_whale_holdings : ℚ) (tokenId : Nat) (now : ℚ)
    (store : List WhaleHolder) (hd : HolderData) :
    (findHolder store tokenId hd.address = none → min_whale_holdings ≤ hd.usd_value →
      (processHolder min_whale_holdings tokenId now store hd).store =
        store ++ [⟨tokenId, hd.address, hd.balance, hd.usd_value, hd.percentage⟩] ∧
      (processHolder min_whale_holdings tokenId now store hd).movements = []) ∧
    (hd.usd_value < min_whale_holdings →
      (processHolder min_whale_holdings tokenId now store hd).store = store ∧
      (processHolder min_whale_holdings tokenId now store hd).movements = [] ∧
      (processHolder min_whale_holdings tokenId now store hd).appended = none) := by
  constructor
  · intro hnone hthr
    unfold processHolder
    rw [if_pos hthr, hnone]
    exact ⟨rfl, rfl⟩
  · intro hlt
    unfold processHolder
    rw [if_neg (not_le.mpr hlt)]
    exact ⟨rfl, rfl, rfl⟩

/-- witness for C2: an unseen above-threshold holder seeds the baseline
without a movement, and a sub-threshold holder is ignored entirely. -/
theorem first_sighting_and_threshold_witness :
    ((processHolder 20000 1 7 ([] : List WhaleHolder) ⟨"w", 1000, 30000, 1⟩).store =
        [] ++ [⟨1, "w", 1000, 30000, 1⟩] ∧
      (processHolder 20000 1 7 ([] : List WhaleHolder) ⟨"w", 1000, 30000, 1⟩).movements = []) ∧
    ((processHolder 20000 1 7 ([] : List WhaleHolder) ⟨"x", 1000, 500, 1⟩).store = [] ∧
      (processHolder 20000 1 7 ([] : List WhaleHolder) ⟨"x", 1000, 500, 1⟩).movements = [] ∧
      (processHolder 20000 1 7 ([] : List WhaleHolder) ⟨"x", 1000, 500, 1⟩).appended = none) :=
  ⟨(first_sighting_and_threshold 20000 1 7 [] ⟨"w", 1000, 30000, 1⟩).1
      (by decide) (by decide),
   (first_sighting_and_threshold 20000 1 7 [] ⟨"x", 1000, 500, 1⟩).2 (by decide)⟩

/-- C5: when a WalletStats row already exists for the address and the
trader-statistics provider call fails or returns no data, the stored
volume, trade count, PnL and the win-rate binding are all unchanged and
the previously stored record is returned. -/
theorem stats_unchanged_on_provider_failure (r : WalletStats) (address : String) :
    update_wallet_stats (some r) address none = r ∧
    (update_wallet_stats (some r) address none).total_volume_usd = r.total_volume_usd ∧
    (update_wallet_stats (some r) address none).total_trades = r.total_trades ∧
    (update_wallet_stats (some r) address none).total_pnl_usd = r.total_pnl_usd ∧
    (update_wallet_stats (some r) address none).win_rate_attr = r.win_rate_attr :=
  ⟨rfl, rfl, rfl, rfl, rfl⟩

/-- C10: once update_wallet_stats has applied provider data, the instance
attribute win_rate is bound to a number, shadowing the class method, and
analyze_wallet on that same instance evaluates stats.win_rate() on a
non-callable value and raises TypeError instead of returning an
analysis. -/
theorem win_rate_shadowing_breaks_analyze (r : WalletStats) (address : String)
    (ts : TraderStats) (holdings : List WhaleHolder)
    (movements : List WhaleMovement) :
    (update_wallet_stats (some r) address (some ts)).win_rate_attr =
      some ts.win_rate ∧
    analyze_wallet (some (update_wallet_stats (some r) address (some ts)))
        holdings movements = AnalyzeResult.typeErrorWinRateNotCallable :=
  ⟨rfl, rfl⟩

/-- C7: given a detected movement (a non-empty analysis with recent
movements), a meme-classified token always fires the high-priority alert
whatever the wallet holds, and a utility-classified token fires the
low-priority alert exactly when total holdings exceed 100000 dollars. -/
theorem alert_asymmetry (tv : ℚ) (tt : ℤ) (wr pnl ats th : ℚ)
    (ms : List WhaleMovement) (hms : ms ≠ []) :
    monitor_alert_decision true (AnalyzeResult.ok tv tt wr pnl ats th ms) =
      some AlertPriority.high ∧
    (monitor_alert_decision false (AnalyzeResult.ok tv tt wr pnl ats th ms) =
        some AlertPriority.low ↔ 100000 < th) ∧
    (monitor_alert_decision false (AnalyzeResult.ok tv tt wr pnl ats th ms) =
        none ↔ th ≤ 100000) := by
  have hne : ms.isEmpty = false := by
    cases ms with
    | nil => exact absurd rfl hms
    | cons a t => rfl
  refine ⟨?_, ?_, ?_⟩
  · simp [monitor_alert_decision, hne]
  · by_cases hth : 100000 < th
    · simp [monitor_alert_decision, hne, hth]
    · simp [monitor_alert_decision, hne, hth]
  · by_cases hth : 100000 < th
    · simp [monitor_alert_decision, hne, hth, not_le.mpr hth]
    · simp [monitor_alert_decision, hne, hth, not_lt.mp hth]

/-- witness for C7: with one recent movement, a meme token fires high at
500 dollars of holdings, a utility token does not fire at 500 dollars,
and fires low at 150000 dollars. -/
theorem alert_asymmetry_witness :
    (monitor_alert_decision true
        (AnalyzeResult.ok 1 1 0 0 0 500 [⟨1, "w", MovementType.buy, 5, 10, 0⟩]) =
      some AlertPriority.high) ∧
    (monitor_alert_decision false
        (AnalyzeResult.ok 1 1 0 0 0 500 [⟨1, "w", MovementType.buy, 5, 10, 0⟩]) =
        none ↔ (500 : ℚ) ≤ 100000) ∧
    (monitor_alert_decision false
        (AnalyzeResult.ok 1 1 0 0 0 150000 [⟨1, "w", MovementType.buy, 5, 10, 0⟩]) =
        some AlertPriority.low ↔ (100000 : ℚ) < 150000) :=
  ⟨(alert_asymmetry 1 1 0 0 0 500 [⟨1, "w", MovementType.buy, 5, 10, 0⟩]
      (by decide)).1,
   (alert_asymmetry 1 1 0 0 0 500 [⟨1, "w", MovementType.buy, 5, 10, 0⟩]
      (by decide)).2.2,
   (alert_asymmetry 1 1 0 0 0 150000 [⟨1, "w", MovementType.buy, 5, 10, 0⟩]
      (by decide)).2.1⟩

/-- C4 counterexample: WalletStats.win_rate is not wins / total_trades *
100.  For the record with total_volume_usd = 3, total_trades = 2,
total_pnl_usd = 1 the method returns 100/3, which equals w / 2 * 100 for
no count w of winning trades. -/
theorem win_rate_not_wins_over_trades :
    ¬ ∃ w : ℕ, WalletStats.win_rate ⟨"a", 3, 2, 1, none⟩ = (w : ℚ) / 2 * 100 := by
  rintro ⟨w, hw⟩
  have hval : WalletStats.win_rate ⟨"a", 3, 2, 1, none⟩ = 100 / 3 := by
    norm_num [WalletStats.win_rate]
  rw [hval] at hw
  have h2 : (200 : ℚ) = 300 * (w : ℚ) := by
    field_simp at hw
    linarith
  have h3 : (200 : ℕ) = 300 * w := by exact_mod_cast h2
  omega

/-- C4 amended: WalletStats.win_rate returns total_pnl_usd /
total_volume_usd * 100 when total_trades is nonzero and total_volume_usd
is positive, and returns 0 when total_trades == 0 or total_volume_usd is
not positive; being a total function of the stored fields, it never
raises a division error. -/
theorem win_rate_formula (s : WalletStats) :
    (s.total_trades = 0 → s.win_rate = 0) ∧
    (s.total_trades ≠ 0 → 0 < s.total_volume_usd →
      s.win_rate = s.total_pnl_usd / s.total_volume_usd * 100) ∧
    (s.total_trades ≠ 0 → s.total_volume_usd ≤ 0 → s.win_rate = 0) := by
  refine ⟨fun h0 => ?_, fun hne hpos => ?_, fun hne hnp => ?_⟩
  · simp [WalletStats.win_rate, h0]
  · simp [WalletStats.win_rate, hne, hpos]
  · simp [WalletStats.win_rate, hne, not_lt.mpr hnp]

/-- witness for the amended C4: a record with two trades, volume 3 and
PnL 1 yields win rate 1 / 3 * 100, and zero trades yield 0. -/
theorem win_rate_formula_witness :
    WalletStats.win_rate ⟨"a", 3, 2, 1, none⟩ = (1 : ℚ) / 3 * 100 ∧
    WalletStats.win_rate ⟨"b", 3, 0, 1, none⟩ = 0 :=
  ⟨(win_rate_formula ⟨"a", 3, 2, 1, none⟩).2.1 (by decide) (by decide),
   (win_rate_formula ⟨"b", 3, 0, 1, none⟩).1 rfl⟩

/-- C8 counterexample: WhaleService.store_whale_holder does not overwrite
an existing snapshot when the fetched balance equals the stored one:
with stored (balance 100, usd 50000, pct 1) and fetched (balance 100,
usd 60000, pct 2) the store is returned unchanged, so the snapshot keeps
usd_value 50000 instead of the fetched 60000. -/
theorem store_whale_holder_stale_on_equal_balance :
    store_whale_holder 1 0 [⟨1, "w", 100, 50000, 1⟩] ⟨"w", 100, 60000, 2⟩ =
      ([⟨1, "w", 100, 50000, 1⟩], []) ∧ (50000 : ℚ) ≠ 60000 := by
  constructor
  · rfl
  · decide

/-- C8 amended: in WhaleDetector.update_whale_holders every sighting of an
existing whale overwrites the stored snapshot with the fetched balance,
usd_value and percentage, equal-balance sightings included; but in
WhaleService.store_whale_holder the overwrite runs only in the
balance-changed branch, so an equal-balance sighting with changed
usd_value or percentage leaves the snapshot unchanged. -/
theorem snapshot_overwrite_detector_only
    (min_whale_holdings : ℚ) (tokenId : Nat) (now : ℚ)
    (store : List WhaleHolder) (hd : HolderData) (whale : WhaleHolder)
    (hfind : findHolder store tokenId hd.address = some whale)
    (hthr : min_whale_holdings ≤ hd.usd_value) :
    findHolder (processHolder min_whale_holdings tokenId now store hd).store
        tokenId hd.address =
      some { whale with balance := hd.balance, usd_value := hd.usd_value,
                        percentage := hd.percentage } ∧
    (whale.balance = hd.balance →
      store_whale_holder tokenId now store hd = (store, [])) := by
  constructor
  · unfold processHolder
    rw [if_pos hthr, hfind]
    exact findHolder_overwriteHolder store tokenId hd whale hfind
  · intro heq
    unfold store_whale_holder
    rw [hfind]
    simp [heq]

/-- witness for the amended C8: an equal-balance sighting with a changed
usd_value updates the snapshot in the detector path and leaves it
unchanged in the service path. -/
theorem snapshot_overwrite_detector_only_witness :
    findHolder (processHolder 20000 1 0 [⟨1, "w", 100, 50000, 1⟩]
        ⟨"w", 100, 60000, 2⟩).store 1 "w" = some ⟨1, "w", 100, 60000, 2⟩ ∧
    store_whale_holder 1 0 [⟨1, "w", 100, 50000, 1⟩] ⟨"w", 100, 60000, 2⟩ =
      ([⟨1, "w", 100, 50000, 1⟩], []) :=
  ⟨(snapshot_overwrite_detector_only 20000 1 0 [⟨1, "w", 100, 50000, 1⟩]
      ⟨"w", 100, 60000, 2⟩ ⟨1, "w", 100, 50000, 1⟩ (by decide) (by decide)).1,
   (snapshot_overwrite_detector_only 20000 1 0 [⟨1, "w", 100, 50000, 1⟩]
      ⟨"w", 100, 60000, 2⟩ ⟨1, "w", 100, 50000, 1⟩ (by decide) (by decide)).2
      (by decide)⟩

/-- C3 counterexample: an HTTP 429 (and equally a 500) raises
APIResponseError on the very first attempt with no backoff sleep and no
retry, while a timeout with the same max_retries = 3 is retried up to 3
attempts with sleeps 2 and 4 — so 429 and 5xx are not retried the same
as a timeout. -/
theorem status_429_not_retried_counterexample :
    makeRequest 3 (fun _ => AttemptOutcome.statusErr 429) =
      ⟨RequestOutcome.apiResponseError 429, [], 1⟩ ∧
    makeRequest 3 (fun _ => AttemptOutcome.statusErr 500) =
      ⟨RequestOutcome.apiResponseError 500, [], 1⟩ ∧
    makeRequest 3 (fun _ => AttemptOutcome.timeoutExc) =
      ⟨RequestOutcome.apiTimeoutError 3, [2, 4], 3⟩ :=
  ⟨rfl, rfl, rfl⟩

/-- C3 amended: every httpx.HTTPStatusError — any 4xx including 429, and
any 5xx — surfaces immediately as a non-retryable APIResponseError on the
first attempt with no backoff sleep; only timeouts and non-status
transport errors take the retry path. -/
theorem status_errors_not_retried (max_retries : Nat)
    (attempt : Nat → AttemptOutcome) (code : Nat)
    (hmr : 1 ≤ max_retries)
    (h0 : attempt 0 = AttemptOutcome.statusErr code) :
    makeRequest max_retries attempt =
      ⟨RequestOutcome.apiResponseError code, [], 1⟩ := by
  cases max_retries with
  | zero => omega
  | succ m =>
    rw [makeRequest, makeRequestLoop, h0]

/-- witness for the amended C3: a 404 on the first attempt aborts at
once. -/
theorem status_errors_not_retried_witness :
    makeRequest 3 (fun _ => AttemptOutcome.statusErr 404) =
      ⟨RequestOutcome.apiResponseError 404, [], 1⟩ :=
  status_errors_not_retried 3 (fun _ => AttemptOutcome.statusErr 404) 404
    (by decide) rfl

/-- invariant of the retry loop when every attempt times out: from any
reachable loop state it raises APITimeoutError after the remaining
attempts, appending the remaining backoff sleeps. -/
theorem makeRequestLoop_all_timeout (m : Nat) (attempt : Nat → AttemptOutcome)
    (hatt : ∀ i, attempt i = AttemptOutcome.timeoutExc) :
    ∀ fuel retries sleeps acc, fuel + retries = m → retries < m →
      makeRequestLoop m attempt fuel retries sleeps acc =
        ⟨RequestOutcome.apiTimeoutError m,
         sleeps ++ (List.range (m - retries - 1)).map (fun i => 2 ^ (retries + 1 + i)),
         acc + (m - retries)⟩ := by
  intro fuel
  induction fuel with
  | zero =>
    intro retries sleeps acc hfr hlt
    omega
  | succ f ih =>
    intro retries sleeps acc hfr hlt
    rw [makeRequestLoop, hatt retries]
    by_cases hlast : retries + 1 = m
    · rw [if_pos hlast]
      have h1 : m - retries - 1 = 0 := by omega
      have h2 : m - retries = 1 := by omega
      rw [h1, h2]
      simp
    · rw [if_neg hlast]
      rw [ih (retries + 1) (sleeps ++ [2 ^ (retries + 1)]) (acc + 1)
        (by omega) (by omega)]
      have hk : ∃ k, m - retries - 1 = k + 1 := ⟨m - retries - 2, by omega⟩
      obtain ⟨k, hkk⟩ := hk
      have hsl :
          (sleeps ++ [2 ^ (retries + 1)]) ++
              (List.range (m - (retries + 1) - 1)).map
                (fun i => 2 ^ (retries + 1 + 1 + i)) =
            sleeps ++ (List.range (m - retries - 1)).map
              (fun i => 2 ^ (retries + 1 + i)) := by
        rw [List.append_assoc, hkk, List.range_succ_eq_map]
        have hk2 : m - (retries + 1) - 1 = k := by omega
        rw [hk2, List.map_cons, List.map_map]
        have hfun : ((fun i => 2 ^ (retries + 1 + i)) ∘ Nat.succ) =
            (fun i => 2 ^ (retries + 1 + 1 + i)) := by
          funext i
          simp only [Function.comp]
          congr 1
          omega
        rw [hfun]
        simp
      rw [hsl]
      have hacc : acc + 1 + (m - (retries + 1)) = acc + (m - retries) := by omega
      rw [hacc]

/-- C6: a request that times out on every attempt raises APITimeoutError
after exactly max_retries attempts, and the backoff sleeps performed
before the final failure are 2 ^ i seconds for i from 1 to
max_retries - 1. -/
theorem retry_exhaustion (max_retries : Nat) (attempt : Nat → AttemptOutcome)
    (hmr : 1 ≤ max_retries)
    (hatt : ∀ i, attempt i = AttemptOutcome.timeoutExc) :
    makeRequest max_retries attempt =
      ⟨RequestOutcome.apiTimeoutError max_retries,
       (List.range (max_retries - 1)).map (fun i => 2 ^ (i + 1)),
       max_retries⟩ := by
  rw [makeRequest,
    makeRequestLoop_all_timeout max_retries attempt hatt max_retries 0 [] 0
      (by omega) (by omega)]
  have hfun : (fun i => 2 ^ (0 + 1 + i)) = (fun i : Nat => 2 ^ (i + 1)) := by
    funext i
    congr 1
    omega
  simp [hfun]

/-- witness for C6 at max_retries = 3: three attempts, sleeps 2 and 4,
then APITimeoutError. -/
theorem retry_exhaustion_witness :
    makeRequest 3 (fun _ => AttemptOutcome.timeoutExc) =
      ⟨RequestOutcome.apiTimeoutError 3,
       (List.range 2).map (fun i => 2 ^ (i + 1)), 3⟩ :=
  retry_exhaustion 3 (fun _ => AttemptOutcome.timeoutExc) (by decide)
    (fun _ => rfl)

/-- C9: the holder-refresh gate timestamp is one field shared by all
tokens: once a call for one token proceeds and stamps
last_holder_update, a later call for any other token within
update_interval seconds returns the empty whales list without contacting
the provider and without touching the store. -/
theorem holder_refresh_gate_shared_across_tokens
    (update_interval min_whale_holdings : ℚ) (tok1 tok2 : Nat)
    (last0 t1 t2 : ℚ) (store : List WhaleHolder) (f1 f2 : List HolderData)
    (h1 : ¬ t1 - last0 < update_interval)
    (h2 : t2 - t1 < update_interval) :
    (update_whale_holders update_interval min_whale_holdings tok1 last0 t1
        store f1).contacted_provider = true ∧
    (update_whale_holders update_interval min_whale_holdings tok1 last0 t1
        store f1).last_holder_update = t1 ∧
    (update_whale_holders update_interval min_whale_holdings tok2
        (update_whale_holders update_interval min_whale_holdings tok1 last0 t1
          store f1).last_holder_update t2
        (update_whale_holders update_interval min_whale_holdings tok1 last0 t1
          store f1).store f2 =
      ⟨[],
       (update_whale_holders update_interval min_whale_holdings tok1 last0 t1
         store f1).store, [], t1, false⟩) := by
  have hr1 : (update_whale_holders update_interval min_whale_holdings tok1
      last0 t1 store f1).last_holder_update = t1 := by
    rw [update_whale_holders, if_neg h1]
  refine ⟨?_, hr1, ?_⟩
  · rw [update_whale_holders, if_neg h1]
  · rw [update_whale_holders, hr1, if_pos h2]

/-- witness for C9: with update_interval 60, a first refresh at t = 60
proceeds and a refresh for another token at t = 61 is skipped with no
provider contact. -/
theorem holder_refresh_gate_shared_across_tokens_witness :
    (update_whale_holders 60 20000 1 0 60 ([] : List WhaleHolder)
        ([] : List HolderData)).contacted_provider = true ∧
    (update_whale_holders 60 20000 1 0 60 ([] : List WhaleHolder)
        ([] : List HolderData)).last_holder_update = 60 ∧
    (update_whale_holders 60 20000 2
        (update_whale_holders 60 20000 1 0 60 ([] : List WhaleHolder)
          ([] : List HolderData)).last_holder_update 61
        (update_whale_holders 60 20000 1 0 60 ([] : List WhaleHolder)
          ([] : List HolderData)).store [⟨"w", 1, 30000, 1⟩] =
      ⟨[],
       (update_whale_holders 60 20000 1 0 60 ([] : List WhaleHolder)
         ([] : List HolderData)).store, [], 60, false⟩) :=
  holder_refresh_gate_shared_across_tokens 60 20000 1 2 0 60 61 [] []
    [⟨"w", 1, 30000, 1⟩] (by norm_num) (by norm_num)

end SuiWhale
